import Mathlib

/-!
Shallow embedding of the execution core in caffe2/core/operator.h:
the untyped operator base, the device-bound operator, the compile-time
dispatch helpers, the device type registry and the operator factory.
Machine integers are modelled as Int; fallible C++ code (throwing
EnforceNotMet, std::out_of_range, or calling std::exit / LOG(FATAL))
is modelled with Except and explicit outcome types.
-/

set_option autoImplicit false

namespace Caffe2

/-- A runtime type descriptor: TypeMeta from the framework, reduced to the
identity and the printable name that the dispatch and error paths read. -/
structure TypeMeta where
  id : Nat
  name : String
deriving DecidableEq, Repr

/-- TypeMeta.Match compares the stored type id against the id of the
candidate type. -/
def TypeMeta.MatchT (meta : TypeMeta) (t : TypeMeta) : Bool :=
  meta.id = t.id

/-- The EnforceNotMet exception: an assertion-style error carrying a
message that wrapping layers may append context to. -/
structure EnforceNotMet where
  msg : String
deriving DecidableEq, Repr

/-- EnforceNotMet.AppendMessage concatenates extra context onto the
stored message. -/
def EnforceNotMet.AppendMessage (e : EnforceNotMet) (extra : String) : EnforceNotMet :=
  ⟨e.msg ++ extra⟩

/-! ## Substring containment, used to state that error messages name
the offending entity. -/

/-- startsWithL s t is true when t is an initial segment of s. -/
def startsWithL : List Char → List Char → Bool
  | _, [] => true
  | [], _ :: _ => false
  | c :: s, d :: t => if c = d then startsWithL s t else false

/-- hasSubL s t is true when t occurs contiguously somewhere inside s. -/
def hasSubL : List Char → List Char → Bool
  | [], sub => startsWithL [] sub
  | c :: rest, sub => startsWithL (c :: rest) sub || hasSubL rest sub

/-- strContains s sub is true when sub occurs contiguously inside s. -/
def strContains (s sub : String) : Bool :=
  hasSubL s.toList sub.toList

theorem startsWithL_append (s y : List Char) : startsWithL (s ++ y) s = true := by
  induction s with
  | nil => cases y <;> rfl
  | cons c t ih => simp [startsWithL, ih]

theorem hasSubL_of_startsWithL (l s : List Char) (h : startsWithL l s = true) :
    hasSubL l s = true := by
  cases l with
  | nil => simpa [hasSubL] using h
  | cons c rest => simp [hasSubL, h]

theorem hasSubL_mid (x s y : List Char) : hasSubL (x ++ (s ++ y)) s = true := by
  induction x with
  | nil => exact hasSubL_of_startsWithL _ _ (startsWithL_append s y)
  | cons c xr ih => simp [hasSubL, ih]

theorem toList_append (a b : String) : (a ++ b).toList = a.toList ++ b.toList := rfl

theorem strContains_mid (a s y : String) : strContains (a ++ (s ++ y)) s = true := by
  unfold strContains
  rw [toList_append, toList_append]
  exact hasSubL_mid a.toList s.toList y.toList

theorem strContains_end (a s : String) : strContains (a ++ s) s = true := by
  have h := strContains_mid a s ""
  simpa using h

/-! ## Compile-time dispatch helpers (operator.h lines 256-311)

The template chain DispatchHelper over FixedValues or TensorTypes is a
linear recursion over the declared candidate list.  We model the chain as
a recursion over a List of candidates; the op object with its
DoRunWithValue / DoRunWithType member templates is modelled as a function
from the chosen template argument to the Bool the specialization returns,
so that which specialization was invoked is observable in the result. -/

/-- DispatchHelper over FixedValues: tries each declared integer candidate
in order; on the first exact match invokes DoRunWithValue at that
candidate; when the candidate list is exhausted invokes
DoRunWithValue at the sentinel -1. -/
def fixedValuesCall (doRunWithValue : Int → Bool) : List Int → Int → Bool
  | [], _ => doRunWithValue (-1)
  | v :: rest, value =>
    if v = value then doRunWithValue v
    else fixedValuesCall doRunWithValue rest value

/-- DispatchHelper over TensorTypes: tries each declared candidate type in
order against the runtime TypeMeta via Match; on the first match invokes
DoRunWithType at that candidate; when the list is exhausted throws
EnforceNotMet naming the runtime type (CAFFE_THROW in the base case). -/
def tensorTypesCall (doRunWithType : TypeMeta → Bool) :
    List TypeMeta → TypeMeta → Except EnforceNotMet Bool
  | [], meta => .error ⟨"Unsupported type of tensor: " ++ meta.name⟩
  | t :: rest, meta =>
    if meta.MatchT t then .ok (doRunWithType t)
    else tensorTypesCall doRunWithType rest meta

/-- C1: value dispatch over a declared ordered set of integer candidates
invokes the specialization of the first candidate equal to the runtime
value (every matching candidate equals the value, so the invoked
specialization is the one compiled for the value itself); when no
candidate equals it, the generic specialization tagged -1 is invoked. -/
theorem fixed_values_dispatch_first_match
    (doRunWithValue : Int → Bool) (vals : List Int) (value : Int) :
    (value ∈ vals → fixedValuesCall doRunWithValue vals value = doRunWithValue value) ∧
    (value ∉ vals → fixedValuesCall doRunWithValue vals value = doRunWithValue (-1)) := by
  induction vals with
  | nil =>
    constructor
    · intro h; cases h
    · intro _; rfl
  | cons v rest ih =>
    constructor
    · intro hmem
      by_cases hv : v = value
      · subst hv; simp [fixedValuesCall]
      · have hrest : value ∈ rest := by
          cases hmem with
          | head => exact absurd rfl hv
          | tail _ h => exact h
        simp only [fixedValuesCall, if_neg hv]
        exact ih.1 hrest
    · intro hnot
      have hv : ¬ v = value := fun h => hnot (h ▸ List.mem_cons_self v rest)
      have hrest : value ∉ rest := fun h => hnot (List.mem_cons_of_mem v h)
      simp only [fixedValuesCall, if_neg hv]
      exact ih.2 hrest

/-- C1 witness: over candidates {1, 4}, runtime value 4 invokes the
specialization for 4 and runtime value 7 invokes the generic -1
specialization. -/
theorem fixed_values_dispatch_first_match_witness :
    fixedValuesCall (fun v => decide (v = 4)) [1, 4] 4 = true ∧
    fixedValuesCall (fun v => decide (v = -1)) [1, 4] 7 = true := by
  refine ⟨?_, ?_⟩
  · have h := (fixed_values_dispatch_first_match (fun v => decide (v = 4)) [1, 4] 4).1
      (by decide)
    simpa using h
  · have h := (fixed_values_dispatch_first_match (fun v => decide (v = -1)) [1, 4] 7).2
      (by decide)
    simpa using h

/-- C2: type dispatch selects the first declared candidate type matching
the runtime type descriptor; when every candidate is exhausted with no
match the call fails with an error whose message contains the runtime
type name, and no generic fallback specialization is invoked. -/
theorem tensor_types_dispatch
    (doRunWithType : TypeMeta → Bool) (types : List TypeMeta) (meta : TypeMeta) :
    (∀ pre t post, types = pre ++ t :: post → meta.MatchT t = true →
      (∀ u ∈ pre, meta.MatchT u = false) →
      tensorTypesCall doRunWithType types meta = .ok (doRunWithType t)) ∧
    ((∀ t ∈ types, meta.MatchT t = false) →
      tensorTypesCall doRunWithType types meta =
        .error ⟨"Unsupported type of tensor: " ++ meta.name⟩ ∧
      ∃ e, tensorTypesCall doRunWithType types meta = .error e ∧
        strContains e.msg meta.name = true) := by
  induction types with
  | nil =>
    constructor
    · intro pre t post hEq
      exact absurd hEq (by simp)
    · intro _
      refine ⟨rfl, ⟨"Unsupported type of tensor: " ++ meta.name⟩, rfl, ?_⟩
      exact strContains_end "Unsupported type of tensor: " meta.name
  | cons t0 rest ih =>
    constructor
    · intro pre t post hEq hMatch hPre
      cases pre with
      | nil =>
        simp only [List.nil_append, List.cons.injEq] at hEq
        rcases hEq with ⟨h1, _⟩
        subst h1
        simp [tensorTypesCall, hMatch]
      | cons p ps =>
        simp only [List.cons_append, List.cons.injEq] at hEq
        rcases hEq with ⟨h1, h2⟩
        subst h1
        have hp : meta.MatchT t0 = false := hPre t0 (List.mem_cons_self _ _)
        simp only [tensorTypesCall, hp, Bool.false_eq_true, if_false]
        exact ih.1 ps t post h2 hMatch (fun u hu => hPre u (List.mem_cons_of_mem _ hu))
    · intro hAll
      have h0 : meta.MatchT t0 = false := hAll t0 (List.mem_cons_self _ _)
      have hrest := ih.2 (fun u hu => hAll u (List.mem_cons_of_mem _ hu))
      simp only [tensorTypesCall, h0, Bool.false_eq_true, if_false]
      exact hrest

/-- C2 witness: over candidate types {int32, int64}, a runtime float type
matches neither candidate, the call fails, and the error message contains
the runtime type name "float". -/
theorem tensor_types_dispatch_witness :
    tensorTypesCall (fun _ => true) [⟨1, "int32_t"⟩, ⟨2, "int64_t"⟩] ⟨3, "float"⟩ =
      .error ⟨"Unsupported type of tensor: float"⟩ := by
  have h := (tensor_types_dispatch (fun _ => true)
    [⟨1, "int32_t"⟩, ⟨2, "int64_t"⟩] ⟨3, "float"⟩).2 (by decide)
  exact h.1

/-! ## Blobs, the workspace and the untyped operator base -/

/-- A typed buffer handle: a type-erased value slot.  The held value is
abstracted to a Nat payload together with the TypeMeta describing its
runtime type. -/
structure Blob where
  meta : TypeMeta
  payload : Nat
deriving DecidableEq, Repr

/-- Blob.IsType probes whether the held type matches the requested type;
it is a pure comparison and cannot fail. -/
def Blob.IsType (b : Blob) (t : TypeMeta) : Bool :=
  b.meta = t

/-- The message of the type-mismatch error raised by the typed blob
accessors, naming the held type and the requested type. -/
def typeMismatchMsg (b : Blob) (t : TypeMeta) : String :=
  "wrong type for the Blob instance. Blob contains " ++
    b.meta.name ++ " while caller expects " ++ t.name

/-- Modelled from the spec: Blob.Get (blob.h is not under src).  The typed
get on a resolved handle fails with a type-mismatch assertion error when
the runtime type held by the buffer does not match the requested type. -/
def Blob.Get (b : Blob) (t : TypeMeta) : Except EnforceNotMet Nat :=
  if b.meta = t then .ok b.payload
  else .error ⟨typeMismatchMsg b t⟩

/-- Modelled from the spec: Blob.GetMutable (blob.h is not under src).
The typed get-mutable on a resolved handle, failing with the same
type-mismatch error as the typed get when the held type differs. -/
def Blob.GetMutable (b : Blob) (t : TypeMeta) : Except EnforceNotMet Nat :=
  Blob.Get b t

/-- The device descriptor attached to an operator definition. -/
structure DeviceOption where
  device_type : Int
deriving DecidableEq, Repr

/-- An operator definition: the declarative record naming the operator,
its implementation type, its ordered input and output buffer names, a
preferred engine, and the device descriptor. -/
structure OperatorDef where
  name : String
  type : String
  inputs : List String
  outputs : List String
  engine : String
  device_option : DeviceOption
deriving DecidableEq, Repr

/-- The external buffer store: named blobs looked up during operator
construction. -/
structure Workspace where
  blobs : List (String × Blob)
deriving DecidableEq, Repr

/-- Workspace.GetBlob looks a blob up by name, returning none when the
name is absent. -/
def Workspace.GetBlob (ws : Workspace) (name : String) : Option Blob :=
  (ws.blobs.find? (fun p => p.1 = name)).map (·.2)

/-- The untyped operator base: owns the operator definition and holds the
borrowed input and output buffer handles, positionally ordered to match
the definition's declared name lists. -/
structure OperatorBase where
  operator_def : OperatorDef
  inputs : List Blob
  outputs : List Blob
deriving DecidableEq, Repr

/-- resolveBlobs resolves each declared buffer name against the buffer
store, failing on the first absent name. -/
def resolveBlobs (ws : Workspace) : List String → Except EnforceNotMet (List Blob)
  | [] => .ok []
  | n :: rest =>
    match ws.GetBlob n with
    | none => .error ⟨"Blob " ++ n ++ " not found"⟩
    | some b =>
      match resolveBlobs ws rest with
      | .error e => .error e
      | .ok bs => .ok (b :: bs)

/-- Modelled from the spec: the OperatorBase constructor (operator.cc is
not under src).  It resolves each declared input and output name against
the buffer store into a borrowed handle, failing immediately when a
declared name is absent. -/
def constructOperatorBase (d : OperatorDef) (ws : Workspace) :
    Except EnforceNotMet OperatorBase :=
  match resolveBlobs ws d.inputs with
  | .error e => .error e
  | .ok ins =>
    match resolveBlobs ws d.outputs with
    | .error e => .error e
    | .ok outs => .ok ⟨d, ins, outs⟩

/-- Errors an accessor can surface: the std::out_of_range thrown by
vector.at on a bad index (a negative int converts to an oversized
unsigned index and is likewise out of range), or an EnforceNotMet
propagating from the typed blob access. -/
inductive AccessError where
  | outOfRange : AccessError
  | enforceNotMet : EnforceNotMet → AccessError
deriving DecidableEq, Repr

/-- OperatorBase.InputSize: the number of borrowed input handles. -/
def OperatorBase.InputSize (op : OperatorBase) : Nat :=
  op.inputs.length

/-- OperatorBase.OutputSize: the number of borrowed output handles. -/
def OperatorBase.OutputSize (op : OperatorBase) : Nat :=
  op.outputs.length

/-- OperatorBase.Input (operator.h lines 50-61): positional typed access
into the borrowed input handles.  vector.at raises out_of_range outside
[0, InputSize); an EnforceNotMet raised by the typed get is caught,
enriched with the offending declared input name, and rethrown. -/
def OperatorBase.Input (op : OperatorBase) (t : TypeMeta) (idx : Int) :
    Except AccessError Nat :=
  if 0 ≤ idx then
    match op.inputs[idx.toNat]? with
    | none => .error .outOfRange
    | some b =>
      match b.Get t with
      | .ok v => .ok v
      | .error e =>
        .error (.enforceNotMet
          (((e.AppendMessage ".\nOffending Blob name: ").AppendMessage
            (op.operator_def.inputs.getD idx.toNat "")).AppendMessage ".\n"))
  else .error .outOfRange

/-- OperatorBase.Output (operator.h lines 63-66): positional typed
mutable access into the borrowed output handles; no catch block, so any
error from the typed access propagates without enrichment. -/
def OperatorBase.Output (op : OperatorBase) (t : TypeMeta) (idx : Int) :
    Except AccessError Nat :=
  if 0 ≤ idx then
    match op.outputs[idx.toNat]? with
    | none => .error .outOfRange
    | some b =>
      match b.GetMutable t with
      | .ok v => .ok v
      | .error e => .error (.enforceNotMet e)
  else .error .outOfRange

/-- OperatorBase.InputIsType (operator.h lines 76-79): probes the runtime
type of the input handle at idx; vector.at still raises out_of_range for
an index outside the declared count. -/
def OperatorBase.InputIsType (op : OperatorBase) (t : TypeMeta) (idx : Int) :
    Except AccessError Bool :=
  if 0 ≤ idx then
    match op.inputs[idx.toNat]? with
    | none => .error .outOfRange
    | some b => .ok (b.IsType t)
  else .error .outOfRange

/-- OperatorBase.OutputIsType (operator.h lines 81-84): probes the runtime
type of the output handle at idx; vector.at still raises out_of_range for
an index outside the declared count. -/
def OperatorBase.OutputIsType (op : OperatorBase) (t : TypeMeta) (idx : Int) :
    Except AccessError Bool :=
  if 0 ≤ idx then
    match op.outputs[idx.toNat]? with
    | none => .error .outOfRange
    | some b => .ok (b.IsType t)
  else .error .outOfRange

theorem strAppend_assoc (a b c : String) : (a ++ b) ++ c = a ++ (b ++ c) := by
  apply congrArg String.mk
  exact List.append_assoc a.data b.data c.data

/-- resolveBlobs succeeds with one blob per declared name, and the blob at
each position is exactly the one the buffer store holds under the
position's name. -/
theorem resolveBlobs_spec (ws : Workspace) :
    ∀ (names : List String) (bs : List Blob),
    resolveBlobs ws names = .ok bs →
    bs.length = names.length ∧
    ∀ i, i < bs.length → ws.GetBlob (names.getD i "") = bs[i]? := by
  intro names
  induction names with
  | nil =>
    intro bs h
    simp only [resolveBlobs] at h
    cases h
    exact ⟨rfl, fun i hi => absurd hi (by simp)⟩
  | cons n rest ih =>
    intro bs h
    simp only [resolveBlobs] at h
    cases hg : ws.GetBlob n with
    | none => rw [hg] at h; cases h
    | some b =>
      rw [hg] at h
      cases hr : resolveBlobs ws rest with
      | error e => rw [hr] at h; cases h
      | ok tl =>
        rw [hr] at h
        cases h
        obtain ⟨hlen, hidx⟩ := ih tl hr
        refine ⟨by simp [hlen], ?_⟩
        intro i hi
        cases i with
        | zero => simpa using hg
        | succ j =>
          have hj : j < tl.length := by simpa using hi
          simpa using hidx j hj

/-- From a successful construction, the borrowed input handle list is the
resolution of the declared input names. -/
theorem constructOperatorBase_inputs (d : OperatorDef) (ws : Workspace)
    (op : OperatorBase) (hop : constructOperatorBase d ws = .ok op) :
    resolveBlobs ws d.inputs = .ok op.inputs ∧ op.operator_def = d := by
  unfold constructOperatorBase at hop
  cases hin : resolveBlobs ws d.inputs with
  | error e => rw [hin] at hop; cases hop
  | ok ins =>
    rw [hin] at hop
    cases hout : resolveBlobs ws d.outputs with
    | error e => rw [hout] at hop; cases hop
    | ok outs =>
      rw [hout] at hop
      cases hop
      exact ⟨rfl, rfl⟩

/-- C3: for every in-range idx, Input returns the content of the buffer
that construction bound to the operator definition's idx-th declared
input name (accessed at the type the buffer actually holds); for every
idx outside [0, InputSize), Input fails and returns no handle. -/
theorem input_positional_binding (d : OperatorDef) (ws : Workspace)
    (op : OperatorBase) (hop : constructOperatorBase d ws = .ok op) (idx : Int) :
    (0 ≤ idx → idx.toNat < op.InputSize →
      ∃ b, ws.GetBlob (d.inputs.getD idx.toNat "") = some b ∧
        op.Input b.meta idx = .ok b.payload) ∧
    (idx < 0 ∨ (op.InputSize : Int) ≤ idx →
      ∀ t, op.Input t idx = .error .outOfRange) := by
  constructor
  · intro h0 hlt
    obtain ⟨hres, _⟩ := constructOperatorBase_inputs d ws op hop
    obtain ⟨hlen, hidx⟩ := resolveBlobs_spec ws d.inputs op.inputs hres
    have hlt' : idx.toNat < op.inputs.length := hlt
    have hi := hidx idx.toNat hlt'
    obtain ⟨b, hb⟩ : ∃ b, op.inputs[idx.toNat]? = some b := by
      rw [List.getElem?_eq_getElem hlt']
      exact ⟨_, rfl⟩
    refine ⟨b, by rw [hi, hb], ?_⟩
    simp [OperatorBase.Input, h0, hb, Blob.Get]
  · intro hor t
    cases hor with
    | inl hneg => simp [OperatorBase.Input, not_le.mpr hneg]
    | inr hge =>
      have h0 : 0 ≤ idx := le_trans (Int.natCast_nonneg _) hge
      have hlen : op.inputs.length ≤ idx.toNat := by
        have : (op.inputs.length : Int) ≤ idx := hge
        omega
      simp [OperatorBase.Input, h0, List.getElem?_eq_none hlen]

/-- Fixture for C3: a definition with one input and one output, a buffer
store holding both names, and the operator the construction produces. -/
def tTensor : TypeMeta := ⟨1, "TensorCPU"⟩

def dC3 : OperatorDef := ⟨"op3", "Dummy", ["X"], ["Y"], "", ⟨0⟩⟩

def wsC3 : Workspace := ⟨[("X", ⟨tTensor, 42⟩), ("Y", ⟨tTensor, 0⟩)]⟩

def opC3 : OperatorBase := ⟨dC3, [⟨tTensor, 42⟩], [⟨tTensor, 0⟩]⟩

/-- C3 witness: on the concrete fixture, Input 0 returns the buffer bound
to the declared name X, and Input 5 fails out of range. -/
theorem input_positional_binding_witness :
    (∃ b, Workspace.GetBlob wsC3 (List.getD dC3.inputs 0 "") = some b ∧
      OperatorBase.Input opC3 b.meta 0 = .ok b.payload) ∧
    OperatorBase.Input opC3 tTensor 5 = .error .outOfRange := by
  constructor
  · exact (input_positional_binding dC3 wsC3 opC3 (by rfl) 0).1 (by decide) (by decide)
  · exact (input_positional_binding dC3 wsC3 opC3 (by rfl) 5).2 (Or.inr (by decide)) tTensor

/-- Fixture for C4: an operator with one input named inX and one output
named outY, both bound to buffers of type TensorA. -/
def tA : TypeMeta := ⟨5, "TensorA"⟩

def tB : TypeMeta := ⟨6, "TensorB"⟩

def dC4 : OperatorDef := ⟨"op4", "Dummy", ["inX"], ["outY"], "", ⟨0⟩⟩

def opC4 : OperatorBase := ⟨dC4, [⟨tA, 3⟩], [⟨tA, 7⟩]⟩

/-- C4 counterexample: accessing output 0 of the fixture at the mismatched
type TensorB fails, but the propagated error message is the raw
type-mismatch message and does not include the declared output name outY,
even though outY is the 0-th declared output name. -/
theorem output_mismatch_error_unnamed_counterexample :
    OperatorBase.Output opC4 tB 0 =
      .error (.enforceNotMet ⟨typeMismatchMsg ⟨tA, 7⟩ tB⟩) ∧
    List.getD dC4.outputs 0 "" = "outY" ∧
    strContains (typeMismatchMsg ⟨tA, 7⟩ tB) "outY" = false := by
  exact ⟨rfl, rfl, by decide⟩

/-- C4 amended: for every in-range idx, an input access at a type not
matching the held type fails with a type-mismatch error enriched with the
declared input name (the message contains that name); an output access at
a mismatched type fails with the type-mismatch error propagating
unchanged, without the declared output name appended. -/
theorem type_mismatch_error_enrichment (op : OperatorBase) (t : TypeMeta)
    (idx : Int) (h0 : 0 ≤ idx) :
    (∀ bin, op.inputs[idx.toNat]? = some bin → bin.meta ≠ t →
      op.Input t idx = .error (.enforceNotMet
        ⟨typeMismatchMsg bin t ++ ".\nOffending Blob name: " ++
          op.operator_def.inputs.getD idx.toNat "" ++ ".\n"⟩) ∧
      ∃ e, op.Input t idx = .error (.enforceNotMet e) ∧
        strContains e.msg (op.operator_def.inputs.getD idx.toNat "") = true) ∧
    (∀ bout, op.outputs[idx.toNat]? = some bout → bout.meta ≠ t →
      op.Output t idx = .error (.enforceNotMet ⟨typeMismatchMsg bout t⟩)) := by
  constructor
  · intro bin hbin hmis
    have hget : bin.Get t = .error ⟨typeMismatchMsg bin t⟩ := by
      simp [Blob.Get, hmis]
    have hin : op.Input t idx = .error (.enforceNotMet
        ⟨typeMismatchMsg bin t ++ ".\nOffending Blob name: " ++
          op.operator_def.inputs.getD idx.toNat "" ++ ".\n"⟩) := by
      simp [OperatorBase.Input, h0, hbin, hget, EnforceNotMet.AppendMessage]
    refine ⟨hin, ⟨_, hin, ?_⟩⟩
    show strContains (typeMismatchMsg bin t ++ ".\nOffending Blob name: " ++
      op.operator_def.inputs.getD idx.toNat "" ++ ".\n")
      (op.operator_def.inputs.getD idx.toNat "") = true
    rw [strAppend_assoc]
    exact strContains_mid _ _ _
  · intro bout hbout hmis
    have hget : bout.GetMutable t = .error ⟨typeMismatchMsg bout t⟩ := by
      simp [Blob.GetMutable, Blob.Get, hmis]
    simp [OperatorBase.Output, h0, hbout, hget]

/-- C4 witness: on the concrete fixture, the input type-mismatch error
message contains the declared name inX, while the output access fails
with the unenriched type-mismatch error. -/
theorem type_mismatch_error_enrichment_witness :
    (∃ e, OperatorBase.Input opC4 tB 0 = .error (.enforceNotMet e) ∧
      strContains e.msg (opC4.operator_def.inputs.getD 0 "") = true) ∧
    OperatorBase.Output opC4 tB 0 =
      .error (.enforceNotMet ⟨typeMismatchMsg ⟨tA, 7⟩ tB⟩) := by
  constructor
  · exact ((type_mismatch_error_enrichment opC4 tB 0 (by decide)).1
      ⟨tA, 3⟩ (by rfl) (by decide)).2
  · exact (type_mismatch_error_enrichment opC4 tB 0 (by decide)).2
      ⟨tA, 7⟩ (by rfl) (by decide)

/-- C10 amended: for every idx in range, InputIsType and OutputIsType
return the boolean type probe of the bound handle and do not fail; for
idx outside the declared count they fail with an out-of-range error. -/
theorem is_type_probes (op : OperatorBase) (t : TypeMeta) (idx : Int) :
    (0 ≤ idx → idx.toNat < op.InputSize →
      ∃ bl, op.inputs[idx.toNat]? = some bl ∧
        op.InputIsType t idx = .ok (bl.IsType t)) ∧
    (0 ≤ idx → idx.toNat < op.OutputSize →
      ∃ bl, op.outputs[idx.toNat]? = some bl ∧
        op.OutputIsType t idx = .ok (bl.IsType t)) ∧
    (idx < 0 ∨ (op.InputSize : Int) ≤ idx →
      op.InputIsType t idx = .error .outOfRange) ∧
    (idx < 0 ∨ (op.OutputSize : Int) ≤ idx →
      op.OutputIsType t idx = .error .outOfRange) := by
  refine ⟨?_, ?_, ?_, ?_⟩
  · intro h0 hlt
    have hlt' : idx.toNat < op.inputs.length := hlt
    obtain ⟨b, hb⟩ : ∃ b, op.inputs[idx.toNat]? = some b := by
      rw [List.getElem?_eq_getElem hlt']
      exact ⟨_, rfl⟩
    exact ⟨b, hb, by simp [OperatorBase.InputIsType, h0, hb]⟩
  · intro h0 hlt
    have hlt' : idx.toNat < op.outputs.length := hlt
    obtain ⟨b, hb⟩ : ∃ b, op.outputs[idx.toNat]? = some b := by
      rw [List.getElem?_eq_getElem hlt']
      exact ⟨_, rfl⟩
    exact ⟨b, hb, by simp [OperatorBase.OutputIsType, h0, hb]⟩
  · intro hor
    cases hor with
    | inl hneg => simp [OperatorBase.InputIsType, not_le.mpr hneg]
    | inr hge =>
      have h0 : 0 ≤ idx := le_trans (Int.natCast_nonneg _) hge
      have hlen : op.inputs.length ≤ idx.toNat := by
        have : (op.inputs.length : Int) ≤ idx := hge
        omega
      simp [OperatorBase.InputIsType, h0, List.getElem?_eq_none hlen]
  · intro hor
    cases hor with
    | inl hneg => simp [OperatorBase.OutputIsType, not_le.mpr hneg]
    | inr hge =>
      have h0 : 0 ≤ idx := le_trans (Int.natCast_nonneg _) hge
      have hlen : op.outputs.length ≤ idx.toNat := by
        have : (op.outputs.length : Int) ≤ idx := hge
        omega
      simp [OperatorBase.OutputIsType, h0, List.getElem?_eq_none hlen]

/-- Fixture for C10: an operator with exactly one input and one output. -/
def dC10 : OperatorDef := ⟨"op10", "Dummy", ["X"], ["Y"], "", ⟨0⟩⟩

def opC10 : OperatorBase := ⟨dC10, [⟨tTensor, 1⟩], [⟨tTensor, 2⟩]⟩

/-- C10 counterexample: on an operator with one input and one output, the
type probes at index 1 (and at a negative index) fail with an
out-of-range error, so the probes are not non-failing for every index. -/
theorem is_type_probes_counterexample :
    OperatorBase.InputIsType opC10 tTensor 1 = .error .outOfRange ∧
    OperatorBase.OutputIsType opC10 tTensor (-1) = .error .outOfRange := by
  exact ⟨rfl, rfl⟩

/-- C10 witness: on the concrete fixture, the probes at index 0 return a
boolean and the probes at index 1 fail out of range. -/
theorem is_type_probes_witness :
    (∃ bl, opC10.inputs[(0 : Int).toNat]? = some bl ∧
      OperatorBase.InputIsType opC10 tTensor 0 = .ok (bl.IsType tTensor)) ∧
    OperatorBase.OutputIsType opC10 tTensor 1 = .error .outOfRange := by
  constructor
  · exact (is_type_probes opC10 tTensor 0).1 (by decide) (by decide)
  · exact (is_type_probes opC10 tTensor 1).2.2.2 (Or.inr (by decide))

/-! ## The untyped invoke contract (operator.h lines 91-94) -/

/-- Modelled from the spec: the message CAFFE_NOT_IMPLEMENTED raises
(common.h is not under src); the default invoke contract fails with a
not implemented error. -/
def notImplementedMsg : String := "not implemented"

/-- OperatorBase.Run (operator.h line 91-93): the default Run of the
untyped base raises the not-implemented assertion error. -/
def OperatorBase.Run : Except EnforceNotMet Bool :=
  .error ⟨notImplementedMsg⟩

/-- OperatorBase.RunAsync (operator.h line 94): delegates to the virtual
Run of the instance; the argument is the Run the instance dispatches
to, so an instance that does not override RunAsync returns exactly
what its Run returns. -/
def OperatorBase.RunAsync (run : Except EnforceNotMet Bool) :
    Except EnforceNotMet Bool :=
  run

/-- C7: the default Run of the untyped base fails with a not-implemented
error, and the base RunAsync delegates to Run, returning exactly the
Run result for every instance that does not override RunAsync. -/
theorem base_run_not_implemented :
    (∃ e, OperatorBase.Run = .error e ∧
      strContains e.msg "not implemented" = true) ∧
    ∀ run, OperatorBase.RunAsync run = run := by
  exact ⟨⟨⟨notImplementedMsg⟩, rfl, by decide⟩, fun _ => rfl⟩

/-! ## The device-bound operator invoke protocol (operator.h lines 164-191)

Operator Context Run switches to the device, calls the virtual
RunOnDevice, then synchronizes via FinishDeviceComputation; a
synchronization failure is LOG(FATAL), which terminates the process.
The subclass computation and the synchronization result are the
parameters of the model; the outcome and the ordered event trace of the
invocation are the observables. -/

/-- One observable step of a device-bound invocation. -/
inductive RunEvent where
  | switchToDevice
  | runOnDevice
  | finishDeviceComputation
  | logFatal (msg : String)
deriving DecidableEq, Repr

/-- The behavior of the concrete subclass and device under one
invocation: what RunOnDevice does (returns a Bool or throws
EnforceNotMet) and what FinishDeviceComputation returns. -/
structure DeviceBehavior where
  runOnDevice : Except EnforceNotMet Bool
  finishOk : Bool

/-- How one invocation of Run ends: an ordinary return, process
termination by LOG(FATAL) carrying the logged text, or a rethrown
enriched assertion error. -/
inductive RunOutcome where
  | returned (b : Bool)
  | fatal (logged : String)
  | thrown (e : EnforceNotMet)
deriving DecidableEq, Repr

/-- Modelled from the spec: ProtoDebugString (proto_utils is not under
src) renders the operator definition debug representation. -/
def protoDebugString (d : OperatorDef) : String :=
  "name: " ++ d.name ++ " type: " ++ d.type

/-- Operator.Run (operator.h lines 164-181): switch to device, run the
device computation, synchronize; a false synchronization result is
LOG(FATAL) with the definition debug text; an EnforceNotMet from the
computation is enriched with the definition debug text and rethrown;
otherwise return the conjunction of the two results. -/
def Operator.Run (beh : DeviceBehavior) (d : OperatorDef) :
    RunOutcome × List RunEvent :=
  match beh.runOnDevice with
  | .error e =>
    (.thrown (e.AppendMessage ("Error from operator: \n" ++ protoDebugString d)),
     [.switchToDevice, .runOnDevice])
  | .ok started =>
    if beh.finishOk then
      (.returned (started && beh.finishOk),
       [.switchToDevice, .runOnDevice, .finishDeviceComputation])
    else
      (.fatal ("Computation on device returned error in operator\n" ++
        protoDebugString d),
       [.switchToDevice, .runOnDevice, .finishDeviceComputation,
        .logFatal ("Computation on device returned error in operator\n" ++
          protoDebugString d)])

/-- C5: Run switches to the device before the device computation,
synchronizes after it whenever the computation returns, and returns
success exactly when both the computation and the synchronization report
success. -/
theorem run_protocol (beh : DeviceBehavior) (d : OperatorDef) :
    (Operator.Run beh d).2.take 2 = [RunEvent.switchToDevice, RunEvent.runOnDevice] ∧
    (∀ s, beh.runOnDevice = .ok s →
      ((Operator.Run beh d).2)[2]? = some RunEvent.finishDeviceComputation) ∧
    ((Operator.Run beh d).1 = RunOutcome.returned true ↔
      beh.runOnDevice = .ok true ∧ beh.finishOk = true) := by
  cases hr : beh.runOnDevice with
  | error e =>
    refine ⟨by simp [Operator.Run, hr], ?_, ?_⟩
    · intro s hs
      exact absurd hs (by simp)
    · simp [Operator.Run, hr]
  | ok started =>
    cases hf : beh.finishOk with
    | false =>
      refine ⟨by simp [Operator.Run, hr, hf], ?_, ?_⟩
      · intro s _
        simp [Operator.Run, hr, hf]
      · simp [Operator.Run, hr, hf]
    | true =>
      refine ⟨by simp [Operator.Run, hr, hf], ?_, ?_⟩
      · intro s _
        simp [Operator.Run, hr, hf]
      · cases started <;> simp [Operator.Run, hr, hf]

/-- Fixture for C5: a successful computation and synchronization. -/
def behC5 : DeviceBehavior := ⟨.ok true, true⟩

def dC5 : OperatorDef := ⟨"op5", "Dummy", [], [], "", ⟨1⟩⟩

/-- C5 witness: on the fixture, the trace starts with the device switch
then the computation, the synchronization follows, and the invocation
returns success. -/
theorem run_protocol_witness :
    (Operator.Run behC5 dC5).2.take 2 = [RunEvent.switchToDevice, RunEvent.runOnDevice] ∧
    ((Operator.Run behC5 dC5).2)[2]? = some RunEvent.finishDeviceComputation ∧
    (Operator.Run behC5 dC5).1 = RunOutcome.returned true := by
  refine ⟨(run_protocol behC5 dC5).1, ?_, ?_⟩
  · exact (run_protocol behC5 dC5).2.1 true rfl
  · exact (run_protocol behC5 dC5).2.2.mpr ⟨rfl, rfl⟩

/-- C6: whenever the synchronization step inside Run reports failure, the
outcome is process termination with the operator definition debug
representation in the logged text, and Run does not return an ordinary
result. -/
theorem run_sync_failure_fatal (beh : DeviceBehavior) (d : OperatorDef)
    (s : Bool) (hok : beh.runOnDevice = .ok s) (hf : beh.finishOk = false) :
    (Operator.Run beh d).1 =
      RunOutcome.fatal ("Computation on device returned error in operator\n" ++
        protoDebugString d) ∧
    strContains ("Computation on device returned error in operator\n" ++
      protoDebugString d) (protoDebugString d) = true ∧
    ∀ b, (Operator.Run beh d).1 ≠ RunOutcome.returned b := by
  refine ⟨by simp [Operator.Run, hok, hf], strContains_end _ _, ?_⟩
  intro b
  simp [Operator.Run, hok, hf]

/-- Fixture for C6: a computation that returns, then a failing
synchronization. -/
def behC6 : DeviceBehavior := ⟨.ok true, false⟩

def dC6 : OperatorDef := ⟨"op6", "Dummy", [], [], "", ⟨1⟩⟩

/-- C6 witness: on the fixture, Run ends fatally with the definition
debug text logged and does not return an ordinary failure result. -/
theorem run_sync_failure_fatal_witness :
    (Operator.Run behC6 dC6).1 =
      RunOutcome.fatal ("Computation on device returned error in operator\n" ++
        protoDebugString dC6) ∧
    (Operator.Run behC6 dC6).1 ≠ RunOutcome.returned false := by
  refine ⟨(run_sync_failure_fatal behC6 dC6 true rfl rfl).1, ?_⟩
  exact (run_sync_failure_fatal behC6 dC6 true rfl rfl).2.2 false

/-! ## Device type registry and the operator factory
(operator.h lines 313-341 and 409-412) -/

/-- A construction-time signal from an operator factory: the
UnsupportedOperatorFeature exception an engine constructor may raise to
opt out, or an ordinary assertion failure. -/
inductive CreateSignal where
  | unsupportedFeature (msg : String)
  | enforceFailed (msg : String)

/-- A registered factory: builds an untyped operator from the definition
and the buffer store, or raises a construction-time signal. -/
def OperatorFactory := OperatorDef → Workspace → Except CreateSignal OperatorBase

/-- A per-device operator registry: operator-name keys (optionally
engine-qualified) mapped to factories. -/
structure OperatorRegistry where
  entries : List (String × OperatorFactory)

/-- Look a factory up by key in one registry. -/
def OperatorRegistry.findFactory (r : OperatorRegistry) (key : String) :
    Option OperatorFactory :=
  (r.entries.find? (fun p => p.1 = key)).map (·.2)

/-- The process-wide map from device type value to its operator
registry, gDeviceTypeRegistry. -/
def DeviceTypeRegistry := List (Int × OperatorRegistry)

/-- Look the registry of one device type up. -/
def lookupDeviceRegistry (regs : DeviceTypeRegistry) (ty : Int) :
    Option OperatorRegistry :=
  (regs.find? (fun p => p.1 = ty)).map (·.2)

/-- The effect of std::exit(1) after the diagnostic printed to cerr: the
process does not proceed. -/
structure FatalExit where
  code : Nat
  diagnostic : String
deriving DecidableEq, Repr

/-- DeviceTypeRegisterer (operator.h lines 324-335): registering a device
type already present prints a diagnostic and exits the process with
status 1; otherwise the registry function result is emplaced under the
type value. -/
def registerDeviceType (regs : DeviceTypeRegistry) (ty : Int)
    (r : OperatorRegistry) : Except FatalExit DeviceTypeRegistry :=
  if regs.any (fun p => p.1 = ty) then
    .error ⟨1, "Device type " ++ toString ty ++
      "registered twice. This should not happen. Did you have " ++
      "duplicated numbers assigned to different devices?"⟩
  else .ok ((ty, r) :: regs)

/-- C9: after any successful registration of a device type, a second
registration under the same numeric device type value is fatal: the
process exits with status 1 carrying the duplicate-device diagnostic
instead of proceeding. -/
theorem device_type_double_registration_fatal (regs : DeviceTypeRegistry)
    (ty : Int) (r1 r2 : OperatorRegistry) (regs1 : DeviceTypeRegistry)
    (h : registerDeviceType regs ty r1 = .ok regs1) :
    registerDeviceType regs1 ty r2 =
      .error ⟨1, "Device type " ++ toString ty ++
        "registered twice. This should not happen. Did you have " ++
        "duplicated numbers assigned to different devices?"⟩ := by
  unfold registerDeviceType at h
  split at h
  · cases h
  · cases h
    unfold registerDeviceType
    simp

/-- Fixture for C9: an empty per-device registry. -/
def regEmpty : OperatorRegistry := ⟨[]⟩

/-- C9 witness: registering device type 0 into the empty map succeeds,
and registering it again is the fatal exit. -/
theorem device_type_double_registration_fatal_witness :
    registerDeviceType [(0, regEmpty)] 0 regEmpty =
      .error ⟨1, "Device type " ++ toString (0 : Int) ++
        "registered twice. This should not happen. Did you have " ++
        "duplicated numbers assigned to different devices?"⟩ :=
  device_type_double_registration_fatal [] 0 regEmpty regEmpty
    [(0, regEmpty)] (by rfl)

/-- Modelled from the spec: CreateOperator (operator.cc is not under
src).  Resolve the registry of the definition device type, absence being
an error; try the engine-qualified key when an engine is named, falling
back to the plain key when the qualified entry is absent or its
construction raises the unsupported-feature signal; when neither
resolves, fail with an operator-not-found error; any other construction
error propagates. -/
def CreateOperator (regs : DeviceTypeRegistry) (d : OperatorDef)
    (ws : Workspace) : Except EnforceNotMet OperatorBase :=
  match lookupDeviceRegistry regs d.device_option.device_type with
  | none =>
    .error ⟨"Device type " ++ toString d.device_option.device_type ++
      " not registered."⟩
  | some registry =>
    let notFound : EnforceNotMet :=
      ⟨"Cannot find operator " ++ d.type ++ " for device " ++
        toString d.device_option.device_type ++ " with engine " ++ d.engine⟩
    let engineAttempt : Option (Except CreateSignal OperatorBase) :=
      if d.engine = "" then none
      else
        match registry.findFactory (d.type ++ "_ENGINE_" ++ d.engine) with
        | none => none
        | some f => some (f d ws)
    match engineAttempt with
    | some (.ok op) => .ok op
    | some (.error (.enforceFailed m)) => .error ⟨m⟩
    | _ =>
      match registry.findFactory d.type with
      | none => .error notFound
      | some f =>
        match f d ws with
        | .ok op => .ok op
        | .error (.unsupportedFeature _) => .error notFound
        | .error (.enforceFailed m) => .error ⟨m⟩

/-- C8: CreateOperator either returns an operator instance or raises an
error, never an empty result; it fails when the definition device type
has no registered registry, and when neither the engine-qualified key
nor the plain key resolves in the device registry. -/
theorem create_operator_total (regs : DeviceTypeRegistry) (d : OperatorDef)
    (ws : Workspace) :
    (lookupDeviceRegistry regs d.device_option.device_type = none →
      ∃ e, CreateOperator regs d ws = .error e) ∧
    (∀ registry, lookupDeviceRegistry regs d.device_option.device_type = some registry →
      registry.findFactory (d.type ++ "_ENGINE_" ++ d.engine) = none →
      registry.findFactory d.type = none →
      ∃ e, CreateOperator regs d ws = .error e) ∧
    ((∃ op, CreateOperator regs d ws = .ok op) ∨
      (∃ e, CreateOperator regs d ws = .error e)) := by
  refine ⟨?_, ?_, ?_⟩
  · intro h
    refine ⟨⟨"Device type " ++ toString d.device_option.device_type ++
      " not registered."⟩, ?_⟩
    simp [CreateOperator, h]
  · intro registry hreg heng hplain
    refine ⟨⟨"Cannot find operator " ++ d.type ++ " for device " ++
      toString d.device_option.device_type ++ " with engine " ++ d.engine⟩, ?_⟩
    by_cases he : d.engine = ""
    · simp [CreateOperator, hreg, he, hplain]
    · simp [CreateOperator, hreg, he, heng, hplain]
  · cases h : CreateOperator regs d ws with
    | ok op => exact Or.inl ⟨op, rfl⟩
    | error e => exact Or.inr ⟨e, rfl⟩

/-- Fixture for C8: a definition over device type 3, with no registry
registered for that device type. -/
def dC8 : OperatorDef := ⟨"op8", "SomeOp", [], [], "", ⟨3⟩⟩

def wsC8 : Workspace := ⟨[]⟩

/-- C8 witness: with no registry for device type 3, CreateOperator raises
the device-not-registered error rather than returning an empty result. -/
theorem create_operator_total_witness :
    CreateOperator [] dC8 wsC8 = .error ⟨"Device type 3 not registered."⟩ ∧
    (∃ e, CreateOperator [] dC8 wsC8 = .error e) := by
  refine ⟨by rfl, ?_⟩
  exact (create_operator_total [] dC8 wsC8).1 (by rfl)

end Caffe2
